import Mathlib

/-!
Verification of the Similarity Finder core (`find_most_similar_texts` in
`functions.py`) of the task-automation-agent repository.

The function reads newline-delimited text items from a file, strips each
line, drops blank lines, truncates to `max_items`, obtains one embedding
vector per item from an external embedding provider, builds the pairwise
dot-product similarity matrix, masks the diagonal with negative infinity,
takes the row-major argmax, and forms the pair of items at that cell's
row/column indices.  If an output file is given, the two items of the pair
are written to it, one per line.  The Python function then returns a
status dictionary (not the pair), even though its docstring and return
annotation promise the pair.

Shallow embedding choices:
  * the input file is a list of raw lines (Python iterates lines of the
    file; each line may carry surrounding whitespace which `strip()`
    removes);
  * embedding vectors are lists of integers (an idealized, exactly
    computable model of the provider's numeric vectors; the claims'
    numeric examples are integral and the claims' algebra holds over any
    ordered ring); the provider itself is a parameter
    `embed : List String → Except String (List (List ℤ))`, mirroring that
    the OpenAI call either yields one vector per input or raises;
  * `-inf` masking is modelled with `WithBot ℤ` whose bottom element is
    strictly below every integer, exactly as `-inf` is below every finite
    float produced as a dot product;
  * `np.argmax` returns the index of the first occurrence of the maximum
    of the row-major (C-order) flattening; `np.unravel_index k (n, n)`
    is `(k / n, k % n)`;
  * the observable outcome of a call is its return value plus the
    contents written to the output file, collected in `SimRun` together
    with the internally selected pair `most_similar_pair` (line
    `most_similar_pair = (items[i], items[j])` of the source);
  * both `raise ValueError` sites are distinguished as the two
    constructors of `SimError`, following the spec's error taxonomy
    (`InsufficientInputError`, `EmbeddingProviderError`); each carries
    the message string the source builds.
-/

/-- Python `str.isspace` on the ASCII whitespace characters: space, tab,
newline, carriage return, vertical tab, form feed.  (Python additionally
strips some Unicode spaces; the claims only concern ASCII whitespace.) -/
def isPySpace (c : Char) : Bool :=
  c == ' ' || c == '\t' || c == '\n' || c == '\r' ||
    c == Char.ofNat 11 || c == Char.ofNat 12

/-- Python `line.strip()`: remove leading and trailing whitespace. -/
def pyStrip (s : String) : String :=
  String.mk (((s.data.dropWhile isPySpace).reverse.dropWhile isPySpace).reverse)

/-- `items = [line.strip() for line in file if line.strip()]`
(functions.py line 207): strip every line, keep only the lines that are
non-empty after stripping. -/
def loadItems (lines : List String) : List String :=
  lines.filterMap (fun l =>
    let s := pyStrip l
    if s = "" then none else some s)

/-- Dot product of two numeric vectors (`np.dot` on equal-length vectors;
on unequal lengths the model truncates to the shorter one, a case the
provider contract excludes). -/
def dot : List ℤ → List ℤ → ℤ
  | x :: xs, y :: ys => x * y + dot xs ys
  | _, _ => 0

/-- Cell `(i, j)` of `similarity = np.dot(embeddings, embeddings.T)`
(functions.py line 225): the dot product of embedding `i` and embedding
`j`. -/
def simEntry (emb : List (List ℤ)) (i j : Nat) : ℤ :=
  dot (emb.getD i []) (emb.getD j [])

/-- Cell `(i, j)` of the similarity matrix after
`np.fill_diagonal(similarity, -np.inf)` (functions.py line 228): diagonal
cells become `-inf` (`⊥`), the rest keep their dot-product value. -/
def maskedEntry (emb : List (List ℤ)) (i j : Nat) : WithBot ℤ :=
  if i = j then ⊥ else (simEntry emb i j : WithBot ℤ)

/-- The row-major (C-order) flattening of the masked `n × n` similarity
matrix, as scanned by `np.argmax`: flat index `k` holds cell
`(k / n, k % n)`. -/
def flatMasked (emb : List (List ℤ)) : List (WithBot ℤ) :=
  (List.range (emb.length * emb.length)).map
    (fun k => maskedEntry emb (k / emb.length) (k % emb.length))

/-- `np.argmax`: index of the first occurrence of the maximum element of
a list (first in scan order wins on ties; `0` on the empty list, on which
numpy instead errors — that case is unreachable from the pipeline). -/
def argmaxIdx : List (WithBot ℤ) → Nat
  | [] => 0
  | x :: xs => if x < xs.getD (argmaxIdx xs) ⊥ then argmaxIdx xs + 1 else 0

/-- `i, j = np.unravel_index(np.argmax(similarity), similarity.shape)`
(functions.py line 231): the row and column of the winning cell. -/
def argmaxCell (emb : List (List ℤ)) : Nat × Nat :=
  let k := argmaxIdx (flatMasked emb)
  (k / emb.length, k % emb.length)

/-- `most_similar_pair = (items[i], items[j])` (functions.py line 233). -/
def selectPair (items : List String) (emb : List (List ℤ)) : String × String :=
  ((items.getD (argmaxCell emb).1 ""), (items.getD (argmaxCell emb).2 ""))

/-- The spec's error taxonomy for the two `raise ValueError` sites:
`InsufficientInputError` (functions.py line 210) and
`EmbeddingProviderError` (functions.py line 222), each carrying the
message string the source constructs. -/
inductive SimError where
  | insufficientInput (msg : String)
  | embeddingProviderError (msg : String)
deriving DecidableEq, Repr

/-- The value a successful call hands back to the caller.  The source's
final statement (functions.py lines 241-243) returns a one-element list
holding a status dictionary with keys `output_saved_to_location` and
`response`; the docstring instead promises the most-similar pair, so the
type can represent either shape. -/
inductive RetVal where
  | statusDict (outputSavedToLocation : Option String) (response : String)
  | pairVal (a b : String)
deriving DecidableEq, Repr

/-- The observable outcome of a successful call: the internally selected
pair (`most_similar_pair`, functions.py line 233), the contents written
to the output file (`none` when no output file was given), and the value
returned to the caller. -/
structure SimRun where
  most_similar_pair : String × String
  written : Option String
  retval : RetVal
deriving DecidableEq, Repr

/-- Shallow embedding of `find_most_similar_texts` (functions.py lines
194-243).  `embed` models the embedding-provider call
`client_local.embeddings.create(input=items, ...)`: it either yields the
list of vectors or fails with a message.  `inputLines` are the raw lines
of `input_file`.  `max_items` is modelled as a natural number (the claims
only concern positive caps; Python's negative-slice semantics is out of
scope). -/
def find_most_similar_texts
    (embed : List String → Except String (List (List ℤ)))
    (inputLines : List String) (max_items : Nat) (output_file : Option String) :
    Except SimError SimRun :=
  let items₀ := loadItems inputLines
  if items₀.length < 2 then
    .error (.insufficientInput
      "The input file must contain at least two items to compare.")
  else
    let items := items₀.take max_items
    match embed items with
    | .error e =>
        .error (.embeddingProviderError ("Error while generating embeddings: " ++ e))
    | .ok embeddings =>
        let pair := selectPair items embeddings
        .ok
          { most_similar_pair := pair
            written := output_file.map (fun _ => pair.1 ++ "\n" ++ pair.2 ++ "\n")
            retval := .statusDict output_file "Task Done Successfully." }

/-- A deterministic embedding provider realizing the spec's P4 example:
for the batch `["x", "y", "z"]` it yields the vectors
`[[1, 0], [1, 0], [0, 1]]`; on any other batch it fails. -/
def embedSpecP4 (ts : List String) : Except String (List (List ℤ)) :=
  if ts = ["x", "y", "z"] then .ok [[1, 0], [1, 0], [0, 1]] else .error "unexpected input"

/-- A deterministic embedding provider mapping every item to the unit
vector `[1]` (all pairwise dot products are `1`). -/
def embedConstOne (ts : List String) : Except String (List (List ℤ)) :=
  .ok (ts.map (fun _ => [1]))

/-- An embedding provider that always fails, modelling a network/provider
error raised by the embeddings call. -/
def embedFailing (_ : List String) : Except String (List (List ℤ)) :=
  .error "connection refused"

/-- Decidable equality on `Except` results (provider results and call
results), so that concrete runs can be checked by `decide`. -/
instance instDecEqExcept {ε α : Type} [DecidableEq ε] [DecidableEq α] :
    DecidableEq (Except ε α) :=
  fun a b =>
    match a, b with
    | .error x, .error y =>
        if h : x = y then .isTrue (by rw [h]) else
          .isFalse (fun hh => h (Except.error.inj hh))
    | .error _, .ok _ => .isFalse (fun hh => Except.noConfusion hh)
    | .ok _, .error _ => .isFalse (fun hh => Except.noConfusion hh)
    | .ok x, .ok y =>
        if h : x = y then .isTrue (by rw [h]) else
          .isFalse (fun hh => h (Except.ok.inj hh))

/-! ### Helper lemmas -/

theorem dot_comm (v w : List ℤ) : dot v w = dot w v := by
  induction v generalizing w with
  | nil => cases w <;> rfl
  | cons x xs ih =>
    cases w with
    | nil => rfl
    | cons y ys => simp only [dot, ih]; ring

theorem dropWhile_dropWhile (p : α → Bool) (l : List α) :
    (l.dropWhile p).dropWhile p = l.dropWhile p := by
  induction l with
  | nil => rfl
  | cons a t ih =>
    by_cases h : p a
    · simp [List.dropWhile_cons, h, ih]
    · simp [List.dropWhile_cons, h]

theorem length_dropWhile_le' (p : α → Bool) (l : List α) :
    (l.dropWhile p).length ≤ l.length := by
  induction l with
  | nil => exact Nat.le_refl 0
  | cons a t ih =>
    by_cases h : p a
    · simp only [List.dropWhile_cons, h, if_true]
      exact Nat.le_succ_of_le ih
    · simp [List.dropWhile_cons, h]

theorem head_false_of_dropWhile_eq_self (p : α → Bool) (a : α) (t : List α)
    (h : (a :: t).dropWhile p = a :: t) : p a = false := by
  by_cases hp : p a
  · rw [List.dropWhile_cons, if_pos hp] at h
    have := length_dropWhile_le' p t
    rw [h] at this
    simp at this
  · simpa using hp

theorem dropWhile_eq_self_of_append (p : α → Bool) (l r : List α)
    (h : (l ++ r).dropWhile p = l ++ r) : l.dropWhile p = l := by
  cases l with
  | nil => rfl
  | cons a t =>
    have ha : p a = false := by
      have := head_false_of_dropWhile_eq_self p a (t ++ r) (by simpa using h)
      exact this
    rw [List.dropWhile_cons, ha]
    simp

theorem stripChars_idem (p : α → Bool) (d : List α) :
    ((((((d.dropWhile p).reverse.dropWhile p).reverse).dropWhile p).reverse.dropWhile p).reverse) =
      ((d.dropWhile p).reverse.dropWhile p).reverse := by
  set u := d.dropWhile p with hu
  have hul : u.dropWhile p = u := dropWhile_dropWhile p d
  set r := (u.reverse.dropWhile p).reverse with hr
  have hsplit : r ++ (u.reverse.takeWhile p).reverse = u := by
    have := List.takeWhile_append_dropWhile (p := p) (l := u.reverse)
    calc r ++ (u.reverse.takeWhile p).reverse
        = (u.reverse.takeWhile p ++ u.reverse.dropWhile p).reverse := by
          rw [List.reverse_append]
      _ = u.reverse.reverse := by rw [this]
      _ = u := List.reverse_reverse u
  have hrl : r.dropWhile p = r := by
    refine dropWhile_eq_self_of_append p r ((u.reverse.takeWhile p).reverse) ?_
    rw [hsplit, hul]
  rw [hrl]
  have : r.reverse = u.reverse.dropWhile p := by
    rw [hr, List.reverse_reverse]
  rw [this, dropWhile_dropWhile, ← hr]

theorem pyStrip_idem (s : String) : pyStrip (pyStrip s) = pyStrip s := by
  unfold pyStrip
  exact congrArg String.mk (stripChars_idem isPySpace s.data)

theorem loadItems_eq_filter_map (lines : List String) :
    loadItems lines = (lines.map pyStrip).filter (fun s => s ≠ "") := by
  induction lines with
  | nil => rfl
  | cons l ls ih =>
    by_cases h : pyStrip l = ""
    · simpa [loadItems, List.filterMap_cons, List.filter_cons, h] using ih
    · simpa [loadItems, List.filterMap_cons, List.filter_cons, h] using ih

theorem mem_loadItems (lines : List String) (s : String) (hs : s ∈ loadItems lines) :
    (∃ l ∈ lines, s = pyStrip l) ∧ pyStrip s = s ∧ s ≠ "" := by
  rw [loadItems_eq_filter_map] at hs
  have hmem := List.mem_of_mem_filter hs
  have hne : s ≠ "" := by
    have := List.of_mem_filter hs
    simpa using this
  obtain ⟨l, hl, hls⟩ := List.mem_map.mp hmem
  exact ⟨⟨l, hl, hls.symm⟩, by rw [← hls]; exact pyStrip_idem l, hne⟩

theorem flatMasked_length (emb : List (List ℤ)) :
    (flatMasked emb).length = emb.length * emb.length := by
  simp [flatMasked]

theorem flatMasked_getD (emb : List (List ℤ)) (k : Nat)
    (hk : k < emb.length * emb.length) :
    (flatMasked emb).getD k ⊥ = maskedEntry emb (k / emb.length) (k % emb.length) := by
  rw [flatMasked, List.getD_eq_getElem?_getD, List.getElem?_map,
    List.getElem?_range hk]
  rfl

theorem argmaxIdx_lt_length (l : List (WithBot ℤ)) (h : l ≠ []) :
    argmaxIdx l < l.length := by
  induction l with
  | nil => exact absurd rfl h
  | cons x xs ih =>
    by_cases hx : x < xs.getD (argmaxIdx xs) ⊥
    · have hxs : xs ≠ [] := by
        intro he
        rw [he] at hx
        simp [List.getD_nil] at hx
      simp only [argmaxIdx, if_pos hx, List.length_cons]
      exact Nat.succ_lt_succ (ih hxs)
    · simp only [argmaxIdx, if_neg hx, List.length_cons]
      exact Nat.succ_pos _

theorem getD_le_getD_argmaxIdx (l : List (WithBot ℤ)) :
    ∀ m, m < l.length → l.getD m ⊥ ≤ l.getD (argmaxIdx l) ⊥ := by
  induction l with
  | nil => intro m hm; simp at hm
  | cons x xs ih =>
    intro m hm
    by_cases hx : x < xs.getD (argmaxIdx xs) ⊥
    · have hidx : argmaxIdx (x :: xs) = argmaxIdx xs + 1 := by
        simp only [argmaxIdx, if_pos hx]
      rw [hidx, List.getD_cons_succ]
      match m with
      | 0 => exact le_of_lt (by simpa using hx)
      | m + 1 =>
        rw [List.getD_cons_succ]
        exact ih m (by simpa using hm)
    · push_neg at hx
      have hidx : argmaxIdx (x :: xs) = 0 := by
        simp only [argmaxIdx, if_neg (not_lt.mpr hx)]
      rw [hidx, List.getD_cons_zero]
      match m with
      | 0 => rw [List.getD_cons_zero]
      | m + 1 =>
        rw [List.getD_cons_succ]
        exact le_trans (ih m (by simpa using hm)) hx


theorem getD_lt_getD_argmaxIdx (l : List (WithBot ℤ)) :
    ∀ m, m < argmaxIdx l → l.getD m ⊥ < l.getD (argmaxIdx l) ⊥ := by
  induction l with
  | nil => intro m hm; simp [argmaxIdx] at hm
  | cons x xs ih =>
    intro m hm
    by_cases hx : x < xs.getD (argmaxIdx xs) ⊥
    · have hidx : argmaxIdx (x :: xs) = argmaxIdx xs + 1 := by
        simp only [argmaxIdx, if_pos hx]
      rw [hidx] at hm ⊢
      rw [List.getD_cons_succ]
      match m with
      | 0 => simpa using hx
      | m + 1 =>
        rw [List.getD_cons_succ]
        exact ih m (Nat.lt_of_succ_lt_succ hm)
    · have hidx : argmaxIdx (x :: xs) = 0 := by
        simp only [argmaxIdx, if_neg hx]
      rw [hidx] at hm
      exact absurd hm (Nat.not_lt_zero m)

theorem argmaxIdx_flatMasked_lt (emb : List (List ℤ)) (h : 1 ≤ emb.length) :
    argmaxIdx (flatMasked emb) < emb.length * emb.length := by
  have hne : flatMasked emb ≠ [] := by
    intro he
    have hlen := flatMasked_length emb
    rw [he, List.length_nil] at hlen
    exact Nat.mul_ne_zero (by omega) (by omega) hlen.symm
  have := argmaxIdx_lt_length _ hne
  rwa [flatMasked_length] at this

theorem argmaxCell_lt (emb : List (List ℤ)) (h : 1 ≤ emb.length) :
    (argmaxCell emb).1 < emb.length ∧ (argmaxCell emb).2 < emb.length := by
  have hk := argmaxIdx_flatMasked_lt emb h
  constructor
  · exact Nat.div_lt_of_lt_mul hk
  · exact Nat.mod_lt _ h

theorem argmaxCell_ne (emb : List (List ℤ)) (h : 2 ≤ emb.length) :
    (argmaxCell emb).1 ≠ (argmaxCell emb).2 := by
  have h1 : 1 ≤ emb.length := le_trans (by omega) h
  have hk := argmaxIdx_flatMasked_lt emb h1
  have h1n : (1 : Nat) < emb.length * emb.length := by nlinarith
  have hle := getD_le_getD_argmaxIdx (flatMasked emb) 1
    (by rw [flatMasked_length]; exact h1n)
  rw [flatMasked_getD emb 1 h1n] at hle
  rw [Nat.div_eq_of_lt (by omega), Nat.mod_eq_of_lt (by omega)] at hle
  have hbot : (⊥ : WithBot ℤ) <
      (flatMasked emb).getD (argmaxIdx (flatMasked emb)) ⊥ := by
    refine lt_of_lt_of_le ?_ hle
    rw [maskedEntry, if_neg (by omega)]
    exact WithBot.bot_lt_coe _
  intro heq
  have heq' : argmaxIdx (flatMasked emb) / emb.length =
      argmaxIdx (flatMasked emb) % emb.length := by
    simpa [argmaxCell] using heq
  rw [flatMasked_getD emb _ hk, maskedEntry, if_pos heq'] at hbot
  exact lt_irrefl _ hbot

theorem find_eq_ok (embed : List String → Except String (List (List ℤ)))
    (lines : List String) (max_items : Nat) (output_file : Option String)
    (emb : List (List ℤ))
    (h2 : 2 ≤ (loadItems lines).length)
    (hemb : embed ((loadItems lines).take max_items) = .ok emb) :
    find_most_similar_texts embed lines max_items output_file =
      .ok
        { most_similar_pair := selectPair ((loadItems lines).take max_items) emb
          written := output_file.map (fun _ =>
            (selectPair ((loadItems lines).take max_items) emb).1 ++ "\n" ++
            (selectPair ((loadItems lines).take max_items) emb).2 ++ "\n")
          retval := .statusDict output_file "Task Done Successfully." } := by
  unfold find_most_similar_texts
  rw [if_neg (by omega)]
  simp only [hemb]

theorem find_eq_error_insufficient (embed : List String → Except String (List (List ℤ)))
    (lines : List String) (max_items : Nat) (output_file : Option String)
    (h : (loadItems lines).length < 2) :
    find_most_similar_texts embed lines max_items output_file =
      .error (.insufficientInput
        "The input file must contain at least two items to compare.") := by
  unfold find_most_similar_texts
  rw [if_pos h]

theorem find_eq_error_provider (embed : List String → Except String (List (List ℤ)))
    (lines : List String) (max_items : Nat) (output_file : Option String)
    (msg : String)
    (h2 : 2 ≤ (loadItems lines).length)
    (hemb : embed ((loadItems lines).take max_items) = .error msg) :
    find_most_similar_texts embed lines max_items output_file =
      .error (.embeddingProviderError ("Error while generating embeddings: " ++ msg)) := by
  unfold find_most_similar_texts
  rw [if_neg (by omega)]
  simp only [hemb]

theorem getD_mem_of_lt (l : List String) (i : Nat) (hi : i < l.length) :
    l.getD i "" ∈ l := by
  rw [List.getD_eq_getElem l "" hi]
  exact List.getElem_mem hi

theorem selectPair_mem (items : List String) (emb : List (List ℤ))
    (hlen : emb.length = items.length) (h1 : 1 ≤ emb.length) :
    (selectPair items emb).1 ∈ items ∧ (selectPair items emb).2 ∈ items := by
  obtain ⟨hi, hj⟩ := argmaxCell_lt emb h1
  rw [hlen] at hi hj
  exact ⟨getD_mem_of_lt _ _ hi, getD_mem_of_lt _ _ hj⟩

theorem pair_mem_items (embed : List String → Except String (List (List ℤ)))
    (lines : List String) (max_items : Nat) (output_file : Option String)
    (emb : List (List ℤ)) (run : SimRun)
    (h2 : 2 ≤ (loadItems lines).length) (h1 : 1 ≤ max_items)
    (hemb : embed ((loadItems lines).take max_items) = .ok emb)
    (hlen : emb.length = ((loadItems lines).take max_items).length)
    (hrun : find_most_similar_texts embed lines max_items output_file = .ok run) :
    run.most_similar_pair.1 ∈ (loadItems lines).take max_items ∧
    run.most_similar_pair.2 ∈ (loadItems lines).take max_items := by
  rw [find_eq_ok embed lines max_items output_file emb h2 hemb] at hrun
  have hr : run = { most_similar_pair := selectPair ((loadItems lines).take max_items) emb
                    written := output_file.map (fun _ =>
                      (selectPair ((loadItems lines).take max_items) emb).1 ++ "\n" ++
                      (selectPair ((loadItems lines).take max_items) emb).2 ++ "\n")
                    retval := .statusDict output_file "Task Done Successfully." } :=
    (Except.ok.inj hrun).symm
  subst hr
  have hlen1 : 1 ≤ emb.length := by
    rw [hlen, List.length_take]
    omega
  exact selectPair_mem _ emb hlen hlen1

theorem flatMasked_singleton (v : List ℤ) : flatMasked [v] = [⊥] := by
  have h1 : List.range 1 = [0] := rfl
  simp [flatMasked, maskedEntry, h1]

theorem selectPair_singleton (a : String) (v : List ℤ) :
    selectPair [a] [v] = (a, a) := by
  have hflat : flatMasked [v] = [⊥] := flatMasked_singleton v
  have hidx : argmaxIdx [(⊥ : WithBot ℤ)] = 0 := by
    simp [argmaxIdx, List.getD_nil]
  simp [selectPair, argmaxCell, hflat, hidx]

/-! ### Claim theorems -/

/-- Claim C1: the spec (and the source's own docstring and return
annotation) state that the most similar items, i.e. the items at the
argmax cell's row and column indices, are returned to the caller as an
ordered pair when no output destination is supplied.  The code computes
that pair (here `("x", "y")`) but hands the caller a status dictionary
instead of the pair, contradicting its own documented contract: the
theorem evaluates the call at a concrete input with no output file and
shows the returned value is the status dictionary, which is not the
pair value. -/
theorem C1_caller_receives_status_dict_not_pair :
    find_most_similar_texts embedConstOne ["x", "y"] 1000 none =
      .ok ⟨("x", "y"), none, .statusDict none "Task Done Successfully."⟩ ∧
    RetVal.statusDict none "Task Done Successfully." ≠ RetVal.pairVal "x" "y" := by
  constructor
  · decide
  · decide

/-- Claim C2 counterexample: the claim asserts distinct indices for any
positive `max_items`, but with two non-empty lines and `max_items = 1`
the call succeeds while the argmax of the all-masked `1 × 1` matrix is
the diagonal cell `(0, 0)`: the selected pair is the self-match
`("x", "x")` at equal indices. -/
theorem C2_counterexample_self_match_at_cap_one :
    find_most_similar_texts embedConstOne ["x", "y"] 1 (some "out.txt") =
      .ok ⟨("x", "x"), some "x\nx\n",
           .statusDict (some "out.txt") "Task Done Successfully."⟩ ∧
    argmaxCell [[(1 : ℤ)]] = (0, 0) := by
  constructor
  · decide
  · decide

/-- Claim C2 (amended): when at least two items survive the truncation —
`2 ≤ max_items` in addition to at least two non-empty lines — and the
provider returns one vector per item, the argmax cell's row and column
indices are distinct (even when the items' text content is identical),
and the pair of any successful run consists of the items at those two
distinct indices. -/
theorem C2_distinct_indices
    (embed : List String → Except String (List (List ℤ)))
    (lines : List String) (max_items : Nat) (output_file : Option String)
    (emb : List (List ℤ))
    (h2 : 2 ≤ (loadItems lines).length) (hm : 2 ≤ max_items)
    (hemb : embed ((loadItems lines).take max_items) = .ok emb)
    (hlen : emb.length = ((loadItems lines).take max_items).length) :
    (argmaxCell emb).1 ≠ (argmaxCell emb).2 ∧
    ∀ run, find_most_similar_texts embed lines max_items output_file = .ok run →
      run.most_similar_pair =
        (((loadItems lines).take max_items).getD (argmaxCell emb).1 "",
         ((loadItems lines).take max_items).getD (argmaxCell emb).2 "") := by
  have hlen2 : 2 ≤ emb.length := by
    rw [hlen, List.length_take]
    omega
  refine ⟨argmaxCell_ne emb hlen2, ?_⟩
  intro run hrun
  rw [find_eq_ok embed lines max_items output_file emb h2 hemb] at hrun
  have hr := (Except.ok.inj hrun).symm
  subst hr
  rfl

/-- Claim C2 witness: the amended theorem applied to the lines
`["x", "y"]` with `max_items = 2` and the constant-vector provider. -/
theorem C2_distinct_indices_witness :
    (argmaxCell [[(1 : ℤ)], [1]]).1 ≠ (argmaxCell [[(1 : ℤ)], [1]]).2 ∧
    ∀ run, find_most_similar_texts embedConstOne ["x", "y"] 2 none = .ok run →
      run.most_similar_pair =
        (((loadItems ["x", "y"]).take 2).getD (argmaxCell [[(1 : ℤ)], [1]]).1 "",
         ((loadItems ["x", "y"]).take 2).getD (argmaxCell [[(1 : ℤ)], [1]]).2 "") :=
  C2_distinct_indices embedConstOne ["x", "y"] 2 none [[1], [1]]
    (by decide) (by decide) (by decide) (by decide)

/-- Claim C3: if fewer than two non-empty lines remain after loading,
the call fails with the insufficient-input error (the source's
`ValueError` at functions.py line 210, the spec's
`InsufficientInputError`), and it does so uniformly for every embedding
provider — in particular for the always-failing provider, which would
have produced a provider error had it been consulted, so no
embedding-provider call is performed. -/
theorem C3_insufficient_input
    (lines : List String) (max_items : Nat) (output_file : Option String)
    (h : (loadItems lines).length < 2) :
    ∀ embed, find_most_similar_texts embed lines max_items output_file =
      .error (.insufficientInput
        "The input file must contain at least two items to compare.") :=
  fun embed => find_eq_error_insufficient embed lines max_items output_file h

/-- Claim C3 witness: one line that strips to `"a"` plus one
whitespace-only line leave a single item, and even the always-failing
provider is never consulted: the call fails with the insufficient-input
error. -/
theorem C3_insufficient_input_witness :
    find_most_similar_texts embedFailing ["  a  ", "   "] 1000 none =
      .error (.insufficientInput
        "The input file must contain at least two items to compare.") :=
  C3_insufficient_input ["  a  ", "   "] 1000 none (by decide) embedFailing

/-- Claim C4: the provider is consulted on exactly the first `max_items`
loaded items (the hypothesis on `embed` concerns precisely that truncated
batch), and both components of the pair of any successful run are members
of that truncated list — no item beyond position `max_items - 1` ever
appears in the result pair. -/
theorem C4_truncation_bounds_result
    (embed : List String → Except String (List (List ℤ)))
    (lines : List String) (max_items : Nat) (output_file : Option String)
    (emb : List (List ℤ)) (run : SimRun)
    (h2 : 2 ≤ (loadItems lines).length) (h1 : 1 ≤ max_items)
    (hemb : embed ((loadItems lines).take max_items) = .ok emb)
    (hlen : emb.length = ((loadItems lines).take max_items).length)
    (hrun : find_most_similar_texts embed lines max_items output_file = .ok run) :
    run.most_similar_pair.1 ∈ (loadItems lines).take max_items ∧
    run.most_similar_pair.2 ∈ (loadItems lines).take max_items :=
  pair_mem_items embed lines max_items output_file emb run h2 h1 hemb hlen hrun

/-- Claim C4 witness: with items `["a", "b", "c", "d"]` and
`max_items = 2`, the successful run's pair components are members of
`["a", "b"]`, so `"c"` and `"d"` cannot appear. -/
theorem C4_truncation_bounds_result_witness :
    (⟨("a", "b"), none, .statusDict none "Task Done Successfully."⟩ : SimRun).most_similar_pair.1
      ∈ (loadItems ["a", "b", "c", "d"]).take 2 ∧
    (⟨("a", "b"), none, .statusDict none "Task Done Successfully."⟩ : SimRun).most_similar_pair.2
      ∈ (loadItems ["a", "b", "c", "d"]).take 2 :=
  C4_truncation_bounds_result embedConstOne ["a", "b", "c", "d"] 2 none [[1], [1]]
    ⟨("a", "b"), none, .statusDict none "Task Done Successfully."⟩
    (by decide) (by decide) (by decide) (by decide) (by decide)

/-- Claim C5: the similarity matrix is symmetric — cell `(i, j)` equals
cell `(j, i)` for all indices, both before the diagonal masking (because
the dot product commutes) and after it. -/
theorem C5_similarity_symmetric (emb : List (List ℤ)) (i j : Nat) :
    simEntry emb i j = simEntry emb j i ∧
    maskedEntry emb i j = maskedEntry emb j i := by
  have h : simEntry emb i j = simEntry emb j i := dot_comm _ _
  refine ⟨h, ?_⟩
  by_cases hij : i = j
  · rw [hij]
  · rw [maskedEntry, maskedEntry, if_neg hij, if_neg (Ne.symm hij), h]

/-- Claim C6: the argmax over the row-major flattening of the masked
similarity matrix attains the maximum value, is strictly greater than
every earlier cell in row-major order (so exact ties are broken in
favour of the first row-major occurrence), and the chosen cell is a
function of the matrix alone, hence identical on every run with
identical input. -/
theorem C6_rowmajor_first_tiebreak (emb : List (List ℤ)) :
    (∀ m, m < (flatMasked emb).length →
        (flatMasked emb).getD m ⊥ ≤
          (flatMasked emb).getD (argmaxIdx (flatMasked emb)) ⊥) ∧
    (∀ m, m < argmaxIdx (flatMasked emb) →
        (flatMasked emb).getD m ⊥ <
          (flatMasked emb).getD (argmaxIdx (flatMasked emb)) ⊥) ∧
    (∀ c₁ c₂, argmaxCell emb = c₁ → argmaxCell emb = c₂ → c₁ = c₂) :=
  ⟨getD_le_getD_argmaxIdx _, getD_lt_getD_argmaxIdx _,
    fun _ _ h₁ h₂ => h₁.symm.trans h₂⟩

/-- Claim C6 witness: on two identical embeddings the two off-diagonal
cells tie with value 1, the first row-major occurrence (flat index 1,
cell `(0, 1)`) wins: the earlier cell 0 is strictly below the winner and
the choice is determinate. -/
theorem C6_rowmajor_first_tiebreak_witness :
    (flatMasked [[(1 : ℤ)], [1]]).getD 0 ⊥ ≤
      (flatMasked [[(1 : ℤ)], [1]]).getD (argmaxIdx (flatMasked [[(1 : ℤ)], [1]])) ⊥ ∧
    (flatMasked [[(1 : ℤ)], [1]]).getD 0 ⊥ <
      (flatMasked [[(1 : ℤ)], [1]]).getD (argmaxIdx (flatMasked [[(1 : ℤ)], [1]])) ⊥ ∧
    argmaxCell [[(1 : ℤ)], [1]] = (0, 1) :=
  ⟨(C6_rowmajor_first_tiebreak [[1], [1]]).1 0 (by decide),
   (C6_rowmajor_first_tiebreak [[1], [1]]).2.1 0 (by decide),
   (C6_rowmajor_first_tiebreak [[1], [1]]).2.2 (argmaxCell [[1], [1]]) (0, 1)
     rfl (by decide)⟩

/-- Claim C7: if the embedding provider fails with any message, the call
fails with the provider-failure error (the source's `ValueError` at
functions.py line 222, the spec's `EmbeddingProviderError`) wrapping the
provider's message; the failure propagates to the caller, so no run — in
particular no pair and no written output — is produced. -/
theorem C7_provider_error_propagates
    (embed : List String → Except String (List (List ℤ)))
    (lines : List String) (max_items : Nat) (output_file : Option String)
    (msg : String)
    (h2 : 2 ≤ (loadItems lines).length)
    (hemb : embed ((loadItems lines).take max_items) = .error msg) :
    find_most_similar_texts embed lines max_items output_file =
      .error (.embeddingProviderError
        ("Error while generating embeddings: " ++ msg)) ∧
    ∀ run, find_most_similar_texts embed lines max_items output_file ≠ .ok run := by
  have h := find_eq_error_provider embed lines max_items output_file msg h2 hemb
  refine ⟨h, fun run hrun => ?_⟩
  rw [h] at hrun
  exact Except.noConfusion hrun

/-- Claim C7 witness: with two items and the always-failing provider the
call fails with the provider error wrapping the provider's message and
produces no successful run. -/
theorem C7_provider_error_propagates_witness :
    (find_most_similar_texts embedFailing ["x", "y"] 1000 (some "out.txt") =
      .error (.embeddingProviderError
        ("Error while generating embeddings: " ++ "connection refused"))) ∧
    ∀ run, find_most_similar_texts embedFailing ["x", "y"] 1000 (some "out.txt") ≠
      .ok run :=
  C7_provider_error_propagates embedFailing ["x", "y"] 1000 (some "out.txt")
    "connection refused" (by decide) (by decide)

/-- Claim C8: the call is a pure function of the provider, the input
lines, the cap, and the output destination, so two runs on identical
inputs yield identical results; and on the spec's P4 example — provider
vectors `[[1,0],[1,0],[0,1]]` for items `["x","y","z"]` — the masked
matrix flattens row-major to `[⊥,1,0,1,⊥,0,0,0,⊥]`, the off-diagonal
maximum 1 is first attained at cell `(0, 1)`, and the winning pair
`("x", "y")` is both selected and written to the sink one item per
line. -/
theorem C8_deterministic_p4_example :
    (∀ (embed : List String → Except String (List (List ℤ)))
        (lines : List String) (max_items : Nat) (output_file : Option String)
        (r₁ r₂ : Except SimError SimRun),
        find_most_similar_texts embed lines max_items output_file = r₁ →
        find_most_similar_texts embed lines max_items output_file = r₂ → r₁ = r₂) ∧
    find_most_similar_texts embedSpecP4 ["x", "y", "z"] 1000 (some "out.txt") =
      .ok ⟨("x", "y"), some "x\ny\n",
           .statusDict (some "out.txt") "Task Done Successfully."⟩ ∧
    flatMasked [[1, 0], [1, 0], [0, 1]] =
      ([⊥, 1, 0, 1, ⊥, 0, 0, 0, ⊥] : List (WithBot ℤ)) ∧
    argmaxCell [[1, 0], [1, 0], [0, 1]] = (0, 1) ∧
    maskedEntry [[1, 0], [1, 0], [0, 1]] 0 1 = ((1 : ℤ) : WithBot ℤ) := by
  refine ⟨fun _ _ _ _ _ _ h₁ h₂ => h₁.symm.trans h₂, ?_, ?_, ?_, ?_⟩
  · decide
  · decide
  · decide
  · decide

/-- Claim C8 witness: the determinism component applied to the P4 run
itself. -/
theorem C8_deterministic_p4_example_witness :
    find_most_similar_texts embedSpecP4 ["x", "y", "z"] 1000 none =
      find_most_similar_texts embedSpecP4 ["x", "y", "z"] 1000 none :=
  C8_deterministic_p4_example.1 embedSpecP4 ["x", "y", "z"] 1000 none _ _ rfl rfl

/-- Claim C9: every item the pipeline compares, selects, or writes is a
stripped input line: the loaded item list is exactly the stripped lines
with the whitespace-only ones dropped; each loaded item is already
stripped and non-empty; any successful run writes exactly its two pair
components, newline-terminated, to the sink (and nothing when no sink is
given); and, for a provider returning one vector per item, both pair
components are loaded items — so the output differs from the raw file
lines whenever those carry surrounding whitespace. -/
theorem C9_items_are_stripped_lines (lines : List String) :
    loadItems lines = (lines.map pyStrip).filter (fun s => s ≠ "") ∧
    (∀ s ∈ loadItems lines, pyStrip s = s ∧ s ≠ "") ∧
    (∀ embed max_items output_file run,
        find_most_similar_texts embed lines max_items output_file = .ok run →
        run.written = output_file.map (fun _ =>
          run.most_similar_pair.1 ++ "\n" ++ run.most_similar_pair.2 ++ "\n")) ∧
    (∀ embed max_items output_file emb run,
        2 ≤ (loadItems lines).length → 1 ≤ max_items →
        embed ((loadItems lines).take max_items) = .ok emb →
        emb.length = ((loadItems lines).take max_items).length →
        find_most_similar_texts embed lines max_items output_file = .ok run →
        run.most_similar_pair.1 ∈ loadItems lines ∧
        run.most_similar_pair.2 ∈ loadItems lines) := by
  refine ⟨loadItems_eq_filter_map lines, ?_, ?_, ?_⟩
  · intro s hs
    exact (mem_loadItems lines s hs).2
  · intro embed max_items output_file run hrun
    by_cases h : (loadItems lines).length < 2
    · rw [find_eq_error_insufficient embed lines max_items output_file h] at hrun
      exact Except.noConfusion hrun
    · push_neg at h
      cases hembed : embed ((loadItems lines).take max_items) with
      | error e =>
          rw [find_eq_error_provider embed lines max_items output_file e h hembed]
            at hrun
          exact Except.noConfusion hrun
      | ok emb =>
          rw [find_eq_ok embed lines max_items output_file emb h hembed] at hrun
          have hr := (Except.ok.inj hrun).symm
          subst hr
          rfl
  · intro embed max_items output_file emb run h2 h1 hemb hlen hrun
    obtain ⟨ha, hb⟩ :=
      pair_mem_items embed lines max_items output_file emb run h2 h1 hemb hlen hrun
    exact ⟨List.take_subset _ _ ha, List.take_subset _ _ hb⟩

/-- Claim C9 witness: on lines carrying surrounding whitespace, the item
`"x"` loaded from the line `"  x "` is already stripped and non-empty. -/
theorem C9_items_are_stripped_lines_witness :
    pyStrip "x" = "x" ∧ "x" ≠ "" :=
  (C9_items_are_stripped_lines ["  x ", "   ", " y"]).2.1 "x" (by decide)

/-- Claim C10: the minimum-two-items check is applied before truncation,
so with at least two non-empty lines and `max_items = 1` the call does
not fail with the insufficient-input error: it proceeds, consults the
provider on the single-element batch `[a]` holding only the first item,
and succeeds (with the degenerate self-pair `(a, a)` selected from the
all-masked one-cell matrix). -/
theorem C10_check_precedes_truncation
    (embed : List String → Except String (List (List ℤ)))
    (lines : List String) (output_file : Option String)
    (a b : String) (rest : List String) (v : List ℤ)
    (hload : loadItems lines = a :: b :: rest)
    (hemb : embed [a] = .ok [v]) :
    find_most_similar_texts embed lines 1 output_file =
      .ok ⟨(a, a), output_file.map (fun _ => a ++ "\n" ++ a ++ "\n"),
           .statusDict output_file "Task Done Successfully."⟩ := by
  have h2 : 2 ≤ (loadItems lines).length := by
    rw [hload, List.length_cons, List.length_cons]
    omega
  have htake : (loadItems lines).take 1 = [a] := by rw [hload]; rfl
  have hemb' : embed ((loadItems lines).take 1) = .ok [v] := by
    rw [htake]; exact hemb
  rw [find_eq_ok embed lines 1 output_file [v] h2 hemb', htake,
    selectPair_singleton]

/-- Claim C10 witness: two non-empty lines with `max_items = 1`: no
insufficient-input error; the provider is consulted on `["x"]` alone and
the call succeeds with the self-pair. -/
theorem C10_check_precedes_truncation_witness :
    find_most_similar_texts embedConstOne ["x", "y"] 1 none =
      .ok ⟨("x", "x"), (none : Option String).map (fun _ => "x" ++ "\n" ++ "x" ++ "\n"),
           .statusDict none "Task Done Successfully."⟩ :=
  C10_check_precedes_truncation embedConstOne ["x", "y"] none "x" "y" [] [1]
    (by decide) (by decide)
